import Mathlib

/-!
Verification of the entry point in `src/src-tauri/src/lib.rs`.

The file shallowly embeds the repository's single function `run()`, which
configures a tauri `Builder` (dialog plugin, a setup closure, process plugin,
opener plugin), calls the framework's blocking `run`, and aborts via
`.expect("error while running tauri application")` if that call errors.

The framework itself (tauri) is external to the repository; its orchestration
of a run call — initialise the builder's plugins, invoke the setup hooks,
then enter the event loop, propagating any error to the `run` result — is
modelled from the specification, while everything the repository's own code
does is translated directly from the source.
-/

/-- The plugins named in the source: `tauri_plugin_dialog`,
`tauri_plugin_updater`, `tauri_plugin_process`, `tauri_plugin_opener`. -/
inductive Plugin where
  | dialog
  | updater
  | process
  | opener
deriving DecidableEq, Repr

/-- Environment supplied by the framework and platform for one invocation:
whether the compilation target is a desktop target (the `#[cfg(desktop)]`
condition), the outcome the framework reports for initialising each plugin
attached to the builder, the outcome of registering the updater plugin on the
app handle inside the setup closure, and the outcome of the event loop. -/
structure FrameworkEnv where
  desktop : Bool
  regResult : Plugin → Except String Unit
  updaterReg : Except String Unit
  runLoop : Except String Unit

/-- A setup hook receives the environment and returns either an error (the
closure's `?` propagation) or the list of plugins it registered on the app
handle. -/
abbrev SetupHook := FrameworkEnv → Except String (List Plugin)

/-- One configuration call made on the builder. -/
inductive ConfigCall where
  | pluginCall (p : Plugin)
  | setupCall
deriving DecidableEq, Repr

/-- The tauri `Builder`, embedded as a record of the configuration calls made
on it, in order, together with the setup hooks it was given. -/
structure Builder where
  trace : List ConfigCall
  hooks : List SetupHook

/-- `tauri::Builder::default()`. -/
def Builder.default : Builder := ⟨[], []⟩

/-- `.plugin(p)` on the builder. -/
def Builder.plugin (b : Builder) (p : Plugin) : Builder :=
  ⟨b.trace ++ [ConfigCall.pluginCall p], b.hooks⟩

/-- `.setup(h)` on the builder. -/
def Builder.setup (b : Builder) (h : SetupHook) : Builder :=
  ⟨b.trace ++ [ConfigCall.setupCall], b.hooks ++ [h]⟩

/-- The plugins attached directly to the builder, in registration order. -/
def Builder.plugins (b : Builder) : List Plugin :=
  b.trace.filterMap fun c =>
    match c with
    | ConfigCall.pluginCall p => some p
    | ConfigCall.setupCall => none

/-- The setup closure of `lib.rs` lines 8–13: under `#[cfg(desktop)]` it
registers the updater plugin on `app.handle()`, propagating a registration
error with `?`; otherwise the body is just `Ok(())`. -/
def setupHook : SetupHook := fun env =>
  if env.desktop then
    match env.updaterReg with
    | Except.error e => Except.error e
    | Except.ok _ => Except.ok [Plugin.updater]
  else
    Except.ok []

/-- The builder constructed by `run()` in `lib.rs` lines 6–15:
`Builder::default().plugin(dialog).setup(...).plugin(process).plugin(opener)`. -/
def kitBuilder : Builder :=
  ((((Builder.default).plugin Plugin.dialog).setup setupHook).plugin
      Plugin.process).plugin Plugin.opener

/-- Modelled from the spec: the framework initialises the builder's plugins in
order, stopping at the first error; the result pairs the successfully
registered plugins with the overall outcome. -/
def registerSeq : List Plugin → (Plugin → Except String Unit) →
    List Plugin × Except String Unit
  | [], _ => ([], Except.ok ())
  | p :: rest, reg =>
    match reg p with
    | Except.error e => ([], Except.error e)
    | Except.ok _ =>
      match registerSeq rest reg with
      | (done, r) => (p :: done, r)

/-- Modelled from the spec: the framework invokes the setup hooks in order,
stopping at the first error; the result pairs the plugins the hooks registered
on the app handle with the overall outcome. -/
def runHooks : List SetupHook → FrameworkEnv → List Plugin × Except String Unit
  | [], _ => ([], Except.ok ())
  | h :: rest, env =>
    match h env with
    | Except.error e => ([], Except.error e)
    | Except.ok ps =>
      match runHooks rest env with
      | (ps2, r) => (ps ++ ps2, r)

/-- What a framework run call produced: the plugins registered (on the builder
or the app handle) before the event loop started, and the `Result` that
`Builder::run` reports back. -/
structure RunReport where
  registeredBeforeLoop : List Plugin
  result : Except String Unit

instance : DecidableEq (Except String Unit) := fun a b =>
  match a, b with
  | Except.ok (), Except.ok () => isTrue rfl
  | Except.error e, Except.error f =>
    if h : e = f then isTrue (by rw [h]) else isFalse (by simp [h])
  | Except.ok _, Except.error _ => isFalse (by simp)
  | Except.error _, Except.ok _ => isFalse (by simp)

/-- Modelled from the spec: `Builder::run` registers the attached plugins,
then invokes the setup hooks, then enters the event loop; an error at any of
the three stages becomes the error of the run call. -/
def Builder.runApp (b : Builder) (env : FrameworkEnv) : RunReport :=
  match registerSeq b.plugins env.regResult with
  | (done, Except.error e) => ⟨done, Except.error e⟩
  | (done, Except.ok _) =>
    match runHooks b.hooks env with
    | (hdone, Except.error e) => ⟨done ++ hdone, Except.error e⟩
    | (hdone, Except.ok _) => ⟨done ++ hdone, env.runLoop⟩

/-- How the process ends from the caller's point of view: a normal return
carrying no value, or a panic with a message. -/
inductive RunOutcome where
  | normal
  | panic (msg : String)
deriving DecidableEq, Repr

/-- The static string passed to `.expect` on line 17 of `lib.rs`. -/
def expectMsg : String := "error while running tauri application"

/-- Rust's `Result::expect(msg)`: return normally on `Ok`, panic on `Err`
with a message formed from `msg`, a separating colon, and the error's
description. -/
def expectResult (r : Except String Unit) (msg : String) : RunOutcome :=
  match r with
  | Except.ok _ => RunOutcome.normal
  | Except.error e => RunOutcome.panic (msg ++ ": " ++ e)

/-- The entry point `run()` of `lib.rs` lines 5–18: build `kitBuilder`, hand
it to the framework's run call, and `.expect` the result. -/
def run (env : FrameworkEnv) : RunOutcome :=
  expectResult (kitBuilder.runApp env).result expectMsg

/-- One observable event of an invocation of `run()`: a configuration call on
the builder, or entering the framework's blocking run call. -/
inductive Event where
  | configPlugin (p : Plugin)
  | configSetup
  | frameworkRunCall
deriving DecidableEq, Repr

/-- The straight-line order of calls `run()` performs: its builder
configuration calls followed by the single framework run call, which it never
returns from into configuration. -/
def runEvents : List Event :=
  (kitBuilder.trace.map fun c =>
    match c with
    | ConfigCall.pluginCall p => Event.configPlugin p
    | ConfigCall.setupCall => Event.configSetup) ++ [Event.frameworkRunCall]

/-- `run()` as reached from the process entry point, which receives the
command-line arguments and the OS environment variables; the source code of
`run()` mentions neither, so they are ignored. -/
def runFromEntry (_argv : List String) (_osEnv : List (String × String))
    (env : FrameworkEnv) : RunOutcome :=
  run env

/-- A desktop environment in which every stage succeeds. -/
def envAllOk : FrameworkEnv :=
  ⟨true, fun _ => Except.ok (), Except.ok (), Except.ok ()⟩

/-- A non-desktop (mobile) environment in which every stage succeeds. -/
def envMobile : FrameworkEnv :=
  ⟨false, fun _ => Except.ok (), Except.ok (), Except.ok ()⟩

/-- A desktop environment whose event loop fails. -/
def envLoopFail : FrameworkEnv :=
  ⟨true, fun _ => Except.ok (), Except.ok (), Except.error "event loop failure"⟩

/-- A desktop environment whose event loop fails with a different error. -/
def envLoopFail2 : FrameworkEnv :=
  ⟨true, fun _ => Except.ok (), Except.ok (), Except.error "window creation failure"⟩

/-- A desktop environment in which registering the updater plugin on the app
handle fails. -/
def envUpdaterFail : FrameworkEnv :=
  ⟨true, fun _ => Except.ok (), Except.error "updater init failure", Except.ok ()⟩

lemma kitBuilder_plugins :
    kitBuilder.plugins = [Plugin.dialog, Plugin.process, Plugin.opener] := rfl

lemma kitBuilder_hooks : kitBuilder.hooks = [setupHook] := rfl

/-- C1 (counterexample): on a non-desktop target with every registration
succeeding, the updater plugin is never registered before the run loop, so
`run()` does not register all four plugins on every invocation. -/
theorem run_registers_four_counterexample :
    Plugin.updater ∉ (kitBuilder.runApp envMobile).registeredBeforeLoop ∧
    (kitBuilder.runApp envMobile).registeredBeforeLoop =
      [Plugin.dialog, Plugin.process, Plugin.opener] := by
  decide

/-- C1 (amended): on desktop targets, when every plugin registration
succeeds, `run()` registers exactly the four plugins dialog, process, opener
and updater (the last via the setup hook) before the run loop starts. -/
theorem run_registers_four_on_desktop (env : FrameworkEnv)
    (hd : env.desktop = true) (hreg : ∀ p, env.regResult p = Except.ok ())
    (hu : env.updaterReg = Except.ok ()) :
    (kitBuilder.runApp env).registeredBeforeLoop =
      [Plugin.dialog, Plugin.process, Plugin.opener, Plugin.updater] ∧
    ∀ q : Plugin, q ∈ (kitBuilder.runApp env).registeredBeforeLoop := by
  have hr : registerSeq kitBuilder.plugins env.regResult =
      ([Plugin.dialog, Plugin.process, Plugin.opener], Except.ok ()) := by
    simp [kitBuilder_plugins, registerSeq, hreg]
  have hh : runHooks kitBuilder.hooks env = ([Plugin.updater], Except.ok ()) := by
    simp [kitBuilder_hooks, runHooks, setupHook, hd, hu]
  have happ : kitBuilder.runApp env =
      ⟨[Plugin.dialog, Plugin.process, Plugin.opener, Plugin.updater],
        env.runLoop⟩ := by
    simp [Builder.runApp, hr, hh]
  have hlist : (kitBuilder.runApp env).registeredBeforeLoop =
      [Plugin.dialog, Plugin.process, Plugin.opener, Plugin.updater] := by
    rw [happ]
  refine ⟨hlist, ?_⟩
  intro q
  rw [hlist]
  cases q <;> decide

/-- C1 witness. -/
theorem run_registers_four_on_desktop_witness :
    (kitBuilder.runApp envAllOk).registeredBeforeLoop =
      [Plugin.dialog, Plugin.process, Plugin.opener, Plugin.updater] ∧
    ∀ q : Plugin, q ∈ (kitBuilder.runApp envAllOk).registeredBeforeLoop :=
  run_registers_four_on_desktop envAllOk rfl (fun _ => rfl) rfl

/-- C2: whenever the framework run call reports an error — from plugin
registration, a setup hook, or the run loop — `run()` ends in a panic whose
message carries the static string, never returns normally, and every possible
outcome of `run()` is either a normal unit return or a panic; no error value
exists to be returned or propagated. -/
theorem run_aborts_on_framework_error (env : FrameworkEnv) (e : String)
    (h : (kitBuilder.runApp env).result = Except.error e) :
    run env = RunOutcome.panic (expectMsg ++ ": " ++ e) ∧
    run env ≠ RunOutcome.normal ∧
    ∀ env' : FrameworkEnv,
      run env' = RunOutcome.normal ∨ ∃ m, run env' = RunOutcome.panic m := by
  refine ⟨by simp [run, expectResult, h], by simp [run, expectResult, h], ?_⟩
  intro env'
  cases h' : (kitBuilder.runApp env').result with
  | ok u => left; simp [run, expectResult, h']
  | error e' => right; exact ⟨expectMsg ++ ": " ++ e', by simp [run, expectResult, h']⟩

/-- C2 witness. -/
theorem run_aborts_on_framework_error_witness :
    run envLoopFail = RunOutcome.panic (expectMsg ++ ": " ++ "event loop failure") ∧
    run envLoopFail ≠ RunOutcome.normal ∧
    ∀ env' : FrameworkEnv,
      run env' = RunOutcome.normal ∨ ∃ m, run env' = RunOutcome.panic m :=
  run_aborts_on_framework_error envLoopFail "event loop failure" rfl

/-- C3: `run()` installs exactly one setup hook, and that hook is
platform-conditional: on desktop targets (with the registration succeeding) it
registers the updater plugin on the app handle, and on non-desktop targets it
registers nothing and returns Ok. -/
theorem setup_hook_unique_and_platform_conditional :
    kitBuilder.hooks.length = 1 ∧
    kitBuilder.hooks = [setupHook] ∧
    (∀ env : FrameworkEnv, env.desktop = true → env.updaterReg = Except.ok () →
      setupHook env = Except.ok [Plugin.updater]) ∧
    (∀ env : FrameworkEnv, env.desktop = false → setupHook env = Except.ok []) := by
  refine ⟨rfl, rfl, ?_, ?_⟩
  · intro env hd hu
    simp [setupHook, hd, hu]
  · intro env hd
    simp [setupHook, hd]

/-- C3 witness. -/
theorem setup_hook_unique_and_platform_conditional_witness :
    setupHook envAllOk = Except.ok [Plugin.updater] ∧
    setupHook envMobile = Except.ok [] :=
  ⟨setup_hook_unique_and_platform_conditional.2.2.1 envAllOk rfl rfl,
   setup_hook_unique_and_platform_conditional.2.2.2 envMobile rfl⟩

/-- C4: `run()` returns the bare `normal` outcome (no value) exactly when the
framework run call succeeds, and the blocking framework run call is the last
event of every invocation. -/
theorem run_unit_on_success (env : FrameworkEnv) :
    (run env = RunOutcome.normal ↔
      (kitBuilder.runApp env).result = Except.ok ()) ∧
    runEvents.getLast? = some Event.frameworkRunCall := by
  refine ⟨?_, by decide⟩
  cases h : (kitBuilder.runApp env).result with
  | ok u => cases u; simp [run, expectResult, h]
  | error e => simp [run, expectResult, h]

/-- C5: the configuration calls of `run()` happen in source order — dialog
plugin, setup hook, process plugin, opener plugin — followed by the framework
run call, which occurs exactly once and is the last event, so control never
returns to configuration. -/
theorem run_call_order :
    runEvents = [Event.configPlugin Plugin.dialog, Event.configSetup,
      Event.configPlugin Plugin.process, Event.configPlugin Plugin.opener,
      Event.frameworkRunCall] ∧
    List.count Event.frameworkRunCall runEvents = 1 ∧
    runEvents.getLast? = some Event.frameworkRunCall := by
  decide

/-- C6: the entry point reads no command-line arguments and no environment
variables: two invocations differing only in those are indistinguishable. -/
theorem run_ignores_args_and_env (argv1 argv2 : List String)
    (osEnv1 osEnv2 : List (String × String)) (env : FrameworkEnv) :
    runFromEntry argv1 osEnv1 env = runFromEntry argv2 osEnv2 env := rfl

/-- C8: on non-desktop targets with every registration succeeding, exactly the
three plugins dialog, process and opener are registered before the run loop,
the updater plugin is absent, and the setup hook returns Ok unconditionally
(no hypothesis on the updater registration outcome is needed). -/
theorem run_mobile_three_plugins (env : FrameworkEnv)
    (hd : env.desktop = false) (hreg : ∀ p, env.regResult p = Except.ok ()) :
    (kitBuilder.runApp env).registeredBeforeLoop =
      [Plugin.dialog, Plugin.process, Plugin.opener] ∧
    Plugin.updater ∉ (kitBuilder.runApp env).registeredBeforeLoop ∧
    setupHook env = Except.ok [] := by
  have hr : registerSeq kitBuilder.plugins env.regResult =
      ([Plugin.dialog, Plugin.process, Plugin.opener], Except.ok ()) := by
    simp [kitBuilder_plugins, registerSeq, hreg]
  have hhook : setupHook env = Except.ok [] := by
    simp [setupHook, hd]
  have hh : runHooks kitBuilder.hooks env = ([], Except.ok ()) := by
    simp [kitBuilder_hooks, runHooks, hhook]
  have happ : kitBuilder.runApp env =
      ⟨[Plugin.dialog, Plugin.process, Plugin.opener], env.runLoop⟩ := by
    simp [Builder.runApp, hr, hh]
  have hlist : (kitBuilder.runApp env).registeredBeforeLoop =
      [Plugin.dialog, Plugin.process, Plugin.opener] := by
    rw [happ]
  refine ⟨hlist, by rw [hlist]; decide, hhook⟩

/-- C8 witness. -/
theorem run_mobile_three_plugins_witness :
    (kitBuilder.runApp envMobile).registeredBeforeLoop =
      [Plugin.dialog, Plugin.process, Plugin.opener] ∧
    Plugin.updater ∉ (kitBuilder.runApp envMobile).registeredBeforeLoop ∧
    setupHook envMobile = Except.ok [] :=
  run_mobile_three_plugins envMobile rfl (fun _ => rfl)

/-- C9: on desktop targets, if registering the updater plugin inside the setup
hook fails, the error is not swallowed: it becomes the error of the framework
run call, and `run()` panics with the same message it uses for any other
framework error. -/
theorem updater_error_propagates (env : FrameworkEnv) (e : String)
    (hd : env.desktop = true) (hu : env.updaterReg = Except.error e)
    (hreg : ∀ p, env.regResult p = Except.ok ()) :
    (kitBuilder.runApp env).result = Except.error e ∧
    run env = RunOutcome.panic (expectMsg ++ ": " ++ e) := by
  have hr : registerSeq kitBuilder.plugins env.regResult =
      ([Plugin.dialog, Plugin.process, Plugin.opener], Except.ok ()) := by
    simp [kitBuilder_plugins, registerSeq, hreg]
  have hh : runHooks kitBuilder.hooks env = ([], Except.error e) := by
    simp [kitBuilder_hooks, runHooks, setupHook, hd, hu]
  have happ : kitBuilder.runApp env =
      ⟨[Plugin.dialog, Plugin.process, Plugin.opener], Except.error e⟩ := by
    simp [Builder.runApp, hr, hh]
  exact ⟨by rw [happ], by simp [run, happ, expectResult]⟩

/-- C9 witness. -/
theorem updater_error_propagates_witness :
    (kitBuilder.runApp envUpdaterFail).result =
      Except.error "updater init failure" ∧
    run envUpdaterFail =
      RunOutcome.panic (expectMsg ++ ": " ++ "updater init failure") :=
  updater_error_propagates envUpdaterFail "updater init failure" rfl rfl
    (fun _ => rfl)

/-- C10 (counterexample): the abort message is not the bare fixed string and
is not identical for every failure cause — two run-loop failures with
different errors abort with different messages, though both are aborts. -/
theorem abort_message_fixed_counterexample :
    run envLoopFail ≠ RunOutcome.panic expectMsg ∧
    run envLoopFail ≠ run envLoopFail2 ∧
    (∃ m, run envLoopFail = RunOutcome.panic m) ∧
    (∃ m, run envLoopFail2 = RunOutcome.panic m) :=
  ⟨by decide, by decide, ⟨expectMsg ++ ": " ++ "event loop failure", rfl⟩,
    ⟨expectMsg ++ ": " ++ "window creation failure", rfl⟩⟩

/-- C10 (amended): whenever `run()` aborts, the message is the one fixed
string "error while running tauri application", the same for every failure
stage, followed by a colon and the description of the specific error the
framework reported. -/
theorem abort_message_fixed_static_part (env : FrameworkEnv) (msg : String)
    (h : run env = RunOutcome.panic msg) :
    ∃ e, msg = expectMsg ++ ": " ++ e ∧
      (kitBuilder.runApp env).result = Except.error e := by
  cases hres : (kitBuilder.runApp env).result with
  | ok u =>
    rw [run, hres] at h
    simp [expectResult] at h
  | error e =>
    rw [run, hres] at h
    simp only [expectResult] at h
    exact ⟨e, (RunOutcome.panic.injEq _ _).mp h.symm, rfl⟩

/-- C10 witness. -/
theorem abort_message_fixed_static_part_witness :
    ∃ e, "error while running tauri application: event loop failure" =
        expectMsg ++ ": " ++ e ∧
      (kitBuilder.runApp envLoopFail).result = Except.error e :=
  abort_message_fixed_static_part envLoopFail
    "error while running tauri application: event loop failure" rfl
